import Mathlib

/-!
Shallow embedding of the Telegram card-game bot (src/index.js and the
unnamed Render variant, which share the same core logic).

The persistent store (PostgreSQL tables cards, users, inventory, trades)
is modelled as an explicit record of lists; each SQL statement of the
source becomes a pure state transformer.  Randomness (Math.random inside
weightedChoice and the uniform picks) is modelled by an oracle supplying
the sampled rarity and pick indices per loop iteration.  A thrown
database error is modelled by an explicit failure schedule: every
statement runs in autocommit mode in the source (no BEGIN or COMMIT
anywhere), so a failure simply stops execution with all earlier writes
already committed.
-/

namespace CardBot

/-- Rarity tiers of RARITY_DEFAULTS (src/index.js lines 23-28). -/
inductive Rarity where
  | common
  | rare
  | epic
  | legendary
deriving DecidableEq, Repr

/-- The string stored in the rarity column for each tier. -/
def rarityName : Rarity → String
  | Rarity.common => "common"
  | Rarity.rare => "rare"
  | Rarity.epic => "epic"
  | Rarity.legendary => "legendary"

/-- Default coins_per_hour of each tier (RARITY_DEFAULTS). -/
def rarityCoins : Rarity → Int
  | Rarity.common => 1
  | Rarity.rare => 3
  | Rarity.epic => 8
  | Rarity.legendary => 20

/-- Sampling weight of each tier (RARITY_DEFAULTS). -/
def rarityWeight : Rarity → Nat
  | Rarity.common => 60
  | Rarity.rare => 25
  | Rarity.epic => 10
  | Rarity.legendary => 5

/-- A row of the cards table (src/index.js lines 40-47). -/
structure Card where
  id : Nat
  name : String
  rarity : String
  coins_per_hour : Int
deriving DecidableEq, Repr

/-- A row of the users table (src/index.js lines 48-52); last_pack is
milliseconds since epoch (default 1970-01-01, i.e. 0). -/
structure UserRow where
  tg_id : Nat
  last_pack : Int
  coins : Int
deriving DecidableEq, Repr

/-- A row of the inventory table (src/index.js lines 53-58). -/
structure InvEntry where
  id : Nat
  user_id : Nat
  card_id : Nat
deriving DecidableEq, Repr

/-- A row of the trades table (src/index.js lines 59-67); the unused
requested_inventory_id column is omitted (never written or read). -/
structure Trade where
  id : Nat
  from_user : Nat
  to_user : Nat
  offered_inventory_id : Nat
  status : String
deriving DecidableEq, Repr

/-- The whole persistent store, plus the two SERIAL id counters. -/
structure DB where
  cards : List Card
  users : List UserRow
  inventory : List InvEntry
  trades : List Trade
  nextCardId : Nat
  nextInvId : Nat
deriving DecidableEq, Repr

/-- SELECT coins FROM users WHERE tg_id = uid, first row, with the
source fallback to 0 when no row exists (src/index.js line 195). -/
def lookupCoins : List UserRow → Nat → Int
  | [], _ => 0
  | u :: l, uid => if u.tg_id = uid then u.coins else lookupCoins l uid

/-- SELECT last_pack FROM users WHERE tg_id = uid, first row, with the
source fallback to epoch when no row exists (src/index.js line 136). -/
def lookupLast : List UserRow → Nat → Int
  | [], _ => 0
  | u :: l, uid => if u.tg_id = uid then u.last_pack else lookupLast l uid

/-- Effect of UPDATE users SET coins = coins + d WHERE tg_id = uid on
one row. -/
def creditRow (uid : Nat) (d : Int) (u : UserRow) : UserRow :=
  if u.tg_id = uid then { u with coins := u.coins + d } else u

/-- Effect of UPDATE users SET last_pack = t WHERE tg_id = uid on one
row. -/
def stampRow (uid : Nat) (t : Int) (u : UserRow) : UserRow :=
  if u.tg_id = uid then { u with last_pack := t } else u

/-- UPDATE users SET coins = coins + d WHERE tg_id = uid
(src/index.js lines 91 and 197, the debit passing d = -price). -/
def updateCoins (uid : Nat) (d : Int) (db : DB) : DB :=
  { db with users := db.users.map (creditRow uid d) }

/-- UPDATE users SET last_pack = now WHERE tg_id = uid
(src/index.js line 142). -/
def setLastPack (uid : Nat) (t : Int) (db : DB) : DB :=
  { db with users := db.users.map (stampRow uid t) }

/-- Balance of a user as the source reads it. -/
def getCoins (db : DB) (uid : Nat) : Int :=
  lookupCoins db.users uid

/-- Last-pack timestamp of a user as the source reads it. -/
def getLastPack (db : DB) (uid : Nat) : Int :=
  lookupLast db.users uid

/-- INSERT INTO users ... ON CONFLICT DO NOTHING (src/index.js
lines 74-76): insert-if-absent with defaults last_pack = epoch,
coins = 0. -/
def ensureUser (uid : Nat) (db : DB) : DB :=
  if uid ∈ db.users.map UserRow.tg_id then db
  else { db with users := db.users ++ [{ tg_id := uid, last_pack := 0, coins := 0 }] }

/-- INSERT INTO cards (name, rarity, coins_per_hour) RETURNING id
(src/index.js line 157); the returned id is db.nextCardId. -/
def insertCard (name : String) (r : Rarity) (db : DB) : DB :=
  { db with
    cards := db.cards ++ [{ id := db.nextCardId, name := name,
                            rarity := rarityName r, coins_per_hour := rarityCoins r }],
    nextCardId := db.nextCardId + 1 }

/-- INSERT INTO inventory (user_id, card_id) (src/index.js line 152). -/
def insertInventory (uid cid : Nat) (db : DB) : DB :=
  { db with
    inventory := db.inventory ++ [{ id := db.nextInvId, user_id := uid, card_id := cid }],
    nextInvId := db.nextInvId + 1 }

/-- Randomness oracle for one pack: per loop iteration i it yields the
rarity sampled by weightedChoice, the two uniform pick indices (applied
modulo the list length, as Math.floor(Math.random()*len) always lies in
that range) and the random display name for a synthesized card. -/
structure PackOracle where
  rarity : Nat → Rarity
  bucketIdx : Nat → Nat
  anyIdx : Nat → Nat
  newName : Nat → String

/-- Placeholder card for the total list indexing; never selected, since
every getD call is guarded by a positive length. -/
def dummyCard : Card :=
  { id := 0, name := "", rarity := "", coins_per_hour := 0 }

/-- One iteration of the pack loop (src/index.js lines 146-162 and
201-216): with a non-empty catalog snapshot, sample a rarity, pick from
its bucket or fall back to the whole snapshot, and insert an inventory
entry; with an empty snapshot, synthesize a new card and insert an
inventory entry referencing it. -/
def openOne (uid : Nat) (o : PackOracle) (i : Nat) (snap : List Card) (db : DB) : DB :=
  if 0 < snap.length then
    insertInventory uid
      (if 0 < (snap.filter (fun c => c.rarity == rarityName (o.rarity i))).length then
        ((snap.filter (fun c => c.rarity == rarityName (o.rarity i))).getD
          (o.bucketIdx i % (snap.filter (fun c => c.rarity == rarityName (o.rarity i))).length)
          dummyCard).id
      else
        (snap.getD (o.anyIdx i % snap.length) dummyCard).id)
      db
  else
    insertInventory uid db.nextCardId (insertCard (o.newName i) (o.rarity i) db)

/-- The pack loop over the fixed catalog snapshot (the source reads the
cards table once, before the loop).  failAt = some k models the first
statement of iteration k throwing; since every statement autocommits,
execution stops with the earlier iterations already persisted. -/
def openPackLoop (uid : Nat) (o : PackOracle) (snap : List Card) (failAt : Option Nat) :
    Nat → Nat → DB → Bool × DB
  | 0, _, db => (true, db)
  | n + 1, i, db =>
    if failAt = some i then (false, db)
    else openPackLoop uid o snap failAt n (i + 1) (openOne uid o i snap db)

/-- A (possibly failing) run of the pack generation for count cards. -/
def openPackRun (uid count : Nat) (o : PackOracle) (failAt : Option Nat) (db : DB) :
    Bool × DB :=
  openPackLoop uid o db.cards failAt count 0 db

/-- The failure-free pack generation, shared by the free-pack handler
and buyPack. -/
def openPack (uid count : Nat) (o : PackOracle) (db : DB) : DB :=
  (openPackRun uid count o none db).2

/-- Math.ceil(x / 60000) for the integer millisecond remainder x
(src/index.js line 139); for b = 60000 this equals (x + b - 1) div b. -/
def ceilMinutes (x : Int) : Int :=
  (x + 59999) / 60000

/-- Result of the free-pack handler. -/
inductive ClaimResult where
  | cooldownActive (waitMinutes : Int)
  | ok
deriving DecidableEq, Repr

/-- The free_pack action handler (src/index.js lines 131-166): ensure
the user exists, read last_pack, compare the elapsed time against the
cooldown, and either answer with the rounded-up remaining minutes or
stamp last_pack := now and generate a pack of 5. -/
def claimFreePack (uid : Nat) (now cd : Int) (o : PackOracle) (db : DB) :
    ClaimResult × DB :=
  if now - getLastPack (ensureUser uid db) uid < cd * 60 * 1000 then
    (ClaimResult.cooldownActive
      (ceilMinutes (cd * 60 * 1000 - (now - getLastPack (ensureUser uid db) uid))),
     ensureUser uid db)
  else
    (ClaimResult.ok, openPack uid 5 o (setLastPack uid now (ensureUser uid db)))

/-- Outcome of buyPack: the insufficient-funds early return, a full
success, or a thrown error during pack generation. -/
inductive BuyResult where
  | insufficientFunds
  | ok
  | crashed
deriving DecidableEq, Repr

/-- buyPack (src/index.js lines 191-221), with the same failure
schedule as openPackRun: read the balance (0 when the user row is
absent), return insufficient funds with no write when coins < price,
otherwise debit price and run the pack loop on the catalog read after
the debit.  There is no BEGIN, COMMIT or ROLLBACK in the source. -/
def buyPackRun (uid count : Nat) (price : Int) (o : PackOracle) (failAt : Option Nat)
    (db : DB) : BuyResult × DB :=
  if getCoins db uid < price then (BuyResult.insufficientFunds, db)
  else
    (if (openPackRun uid count o failAt (updateCoins uid (-price) db)).1 then BuyResult.ok
     else BuyResult.crashed,
     (openPackRun uid count o failAt (updateCoins uid (-price) db)).2)

/-- The failure-free buyPack, as invoked by the buy_ action handler
(src/index.js lines 223-231; the handler performs no ensureUser). -/
def buyPack (uid count : Nat) (price : Int) (o : PackOracle) (db : DB) : BuyResult × DB :=
  buyPackRun uid count price o none db

/-- coins_per_hour of the card with the given id, 0 when absent (the
LEFT JOIN yields NULL, which SUM ignores). -/
def cardRate : List Card → Nat → Int
  | [], _ => 0
  | c :: l, cid => if c.id = cid then c.coins_per_hour else cardRate l cid

/-- The per-user income of the grouped SELECT in givePassiveIncomeAll
(src/index.js lines 81-87): the sum of coins_per_hour over the cards
referenced by the inventory entries owned by uid. -/
def userIncome (db : DB) (uid : Nat) : Int :=
  ((db.inventory.filter (fun e => e.user_id == uid)).map
    (fun e => cardRate db.cards e.card_id)).sum

/-- The credit loop of givePassiveIncomeAll (src/index.js lines 88-93):
per user of the precomputed result set, issue an UPDATE only when the
income is positive.  failUid = some u models the UPDATE for u throwing;
there is no per-iteration catch in the source, so the loop aborts and
the error propagates to the per-tick catch of startBackgroundTasks.
The third component lists the users for which an UPDATE was issued. -/
def passiveLoop (incomes : Nat → Int) (failUid : Option Nat) :
    List Nat → DB → Bool × DB × List Nat
  | [], db => (true, db, [])
  | uid :: rest, db =>
    if 0 < incomes uid then
      if failUid = some uid then (false, db, [])
      else
        ((passiveLoop incomes failUid rest (updateCoins uid (incomes uid) db)).1,
         (passiveLoop incomes failUid rest (updateCoins uid (incomes uid) db)).2.1,
         uid :: (passiveLoop incomes failUid rest (updateCoins uid (incomes uid) db)).2.2)
    else passiveLoop incomes failUid rest db

/-- One tick of givePassiveIncomeAll (src/index.js lines 78-97): the
incomes are computed from the snapshot taken by the single SELECT, then
the credits are applied one user at a time. -/
def givePassiveIncomeAll (failUid : Option Nat) (db : DB) : Bool × DB × List Nat :=
  passiveLoop (fun uid => userIncome db uid) failUid (db.users.map UserRow.tg_id) db

/-- SELECT * FROM trades WHERE id = trId, first row
(src/index.js line 276). -/
def lookupTrade : List Trade → Nat → Option Trade
  | [], _ => none
  | t :: l, trId => if t.id = trId then some t else lookupTrade l trId

/-- Effect of UPDATE inventory SET user_id = u WHERE id = iid on one
row. -/
def setOwnerRow (iid u : Nat) (e : InvEntry) : InvEntry :=
  if e.id = iid then { e with user_id := u } else e

/-- Effect of UPDATE trades SET status = s WHERE id = trId on one
row. -/
def setStatusRow (trId : Nat) (s : String) (t : Trade) : Trade :=
  if t.id = trId then { t with status := s } else t

/-- UPDATE inventory SET user_id = u WHERE id = iid
(src/index.js line 279). -/
def setInventoryOwner (iid u : Nat) (db : DB) : DB :=
  { db with inventory := db.inventory.map (setOwnerRow iid u) }

/-- UPDATE trades SET status = s WHERE id = trId
(src/index.js lines 280 and 286). -/
def setTradeStatus (trId : Nat) (s : String) (db : DB) : DB :=
  { db with trades := db.trades.map (setStatusRow trId s) }

/-- Result of the trade_accept handler. -/
inductive AcceptResult where
  | notFound
  | notTarget
  | accepted
deriving DecidableEq, Repr

/-- The trade_accept handler (src/index.js lines 273-283): look the
trade up, refuse when absent or when the acting user is not the target,
otherwise transfer the offered inventory entry to the target and mark
the trade accepted.  The source performs no check of the current
status. -/
def acceptTrade (trId uid : Nat) (db : DB) : AcceptResult × DB :=
  match lookupTrade db.trades trId with
  | none => (AcceptResult.notFound, db)
  | some tr =>
    if tr.to_user ≠ uid then (AcceptResult.notTarget, db)
    else
      (AcceptResult.accepted,
       setTradeStatus trId "accepted" (setInventoryOwner tr.offered_inventory_id tr.to_user db))

/-- The trade_reject handler (src/index.js lines 284-288): it parses
the trade id and unconditionally issues UPDATE trades SET
status = rejected; the acting user is read from the context but never
checked, and no lookup is performed. -/
def rejectTrade (trId : Nat) (_uid : Nat) (db : DB) : DB :=
  setTradeStatus trId "rejected" db

/-- Owner of the inventory entry with the given id, as read by
SELECT user_id FROM inventory WHERE id = iid. -/
def lookupOwner : List InvEntry → Nat → Option Nat
  | [], _ => none
  | e :: l, iid => if e.id = iid then some e.user_id else lookupOwner l iid

/-- Owner of an inventory entry in a store. -/
def invOwner (db : DB) (iid : Nat) : Option Nat :=
  lookupOwner db.inventory iid

/-- Status of the trade with the given id in a store. -/
def tradeStatus (db : DB) (trId : Nat) : Option String :=
  (lookupTrade db.trades trId).map Trade.status

/-- A fixed randomness oracle for the concrete evaluations. -/
def o0 : PackOracle :=
  { rarity := fun _ => Rarity.common, bucketIdx := fun _ => 0,
    anyIdx := fun _ => 0, newName := fun _ => "card" }

/-- The store right after initDb: all tables empty. -/
def emptyDB : DB :=
  { cards := [], users := [], inventory := [], trades := [], nextCardId := 1, nextInvId := 1 }

/-- A pending trade offering entry 10 from user 1 to user 2. -/
def tradeC4 : Trade :=
  { id := 1, from_user := 1, to_user := 2, offered_inventory_id := 10, status := "pending" }

/-- Store with entry 10 owned by user 1 and the pending trade tradeC4. -/
def dbC4 : DB :=
  { cards := [],
    users := [{ tg_id := 1, last_pack := 0, coins := 0 },
              { tg_id := 2, last_pack := 0, coins := 0 }],
    inventory := [{ id := 10, user_id := 1, card_id := 1 }],
    trades := [tradeC4],
    nextCardId := 1, nextInvId := 11 }

/-- Store with entry 10 owned by user 1 and an already rejected trade
offering it to user 2. -/
def dbC1 : DB :=
  { cards := [],
    users := [{ tg_id := 1, last_pack := 0, coins := 0 },
              { tg_id := 2, last_pack := 0, coins := 0 }],
    inventory := [{ id := 10, user_id := 1, card_id := 1 }],
    trades := [{ id := 1, from_user := 1, to_user := 2,
                 offered_inventory_id := 10, status := "rejected" }],
    nextCardId := 1, nextInvId := 11 }

/-- Store with one catalog card and user 7 with no coins and no
inventory. -/
def dbC2 : DB :=
  { cards := [{ id := 1, name := "c", rarity := "common", coins_per_hour := 1 }],
    users := [{ tg_id := 7, last_pack := 0, coins := 0 }],
    inventory := [], trades := [], nextCardId := 2, nextInvId := 1 }

/-- Store with one catalog card and user 7 holding 60 coins. -/
def dbC3 : DB :=
  { cards := [{ id := 1, name := "c", rarity := "common", coins_per_hour := 1 }],
    users := [{ tg_id := 7, last_pack := 0, coins := 60 }],
    inventory := [], trades := [], nextCardId := 2, nextInvId := 1 }

/-- Store with one catalog card and user 7 holding 59 coins. -/
def dbC6 : DB :=
  { cards := [{ id := 1, name := "c", rarity := "common", coins_per_hour := 1 }],
    users := [{ tg_id := 7, last_pack := 0, coins := 59 }],
    inventory := [], trades := [], nextCardId := 2, nextInvId := 1 }

/-- Store where users 1 and 2 each own one copy of the 1-coin card. -/
def dbC9 : DB :=
  { cards := [{ id := 1, name := "c", rarity := "common", coins_per_hour := 1 }],
    users := [{ tg_id := 1, last_pack := 0, coins := 0 },
              { tg_id := 2, last_pack := 0, coins := 0 }],
    inventory := [{ id := 1, user_id := 1, card_id := 1 },
                  { id := 2, user_id := 2, card_id := 1 }],
    trades := [], nextCardId := 2, nextInvId := 3 }

/-- Store where user 1 owns copies of cards with rates 1 and 8 and
user 2 owns nothing. -/
def dbC8 : DB :=
  { cards := [{ id := 1, name := "a", rarity := "common", coins_per_hour := 1 },
              { id := 2, name := "b", rarity := "epic", coins_per_hour := 8 }],
    users := [{ tg_id := 1, last_pack := 0, coins := 100 },
              { tg_id := 2, last_pack := 0, coins := 50 }],
    inventory := [{ id := 1, user_id := 1, card_id := 1 },
                  { id := 2, user_id := 1, card_id := 2 }],
    trades := [], nextCardId := 3, nextInvId := 3 }

/-! Helper lemmas about rows and lookups. -/

theorem creditRow_tg_id (uid : Nat) (d : Int) (u : UserRow) :
    (creditRow uid d u).tg_id = u.tg_id := by
  unfold creditRow
  split <;> rfl

theorem stampRow_tg_id (uid : Nat) (t : Int) (u : UserRow) :
    (stampRow uid t u).tg_id = u.tg_id := by
  unfold stampRow
  split <;> rfl

theorem map_creditRow_tg_ids (l : List UserRow) (uid : Nat) (d : Int) :
    (l.map (creditRow uid d)).map UserRow.tg_id = l.map UserRow.tg_id := by
  induction l with
  | nil => rfl
  | cons u l ih => simp [creditRow_tg_id, ih]

theorem map_stampRow_tg_ids (l : List UserRow) (uid : Nat) (t : Int) :
    (l.map (stampRow uid t)).map UserRow.tg_id = l.map UserRow.tg_id := by
  induction l with
  | nil => rfl
  | cons u l ih => simp [stampRow_tg_id, ih]

theorem lookupCoins_map_creditRow_ne (l : List UserRow) (v uid : Nat) (d : Int)
    (h : v ≠ uid) :
    lookupCoins (l.map (creditRow v d)) uid = lookupCoins l uid := by
  induction l with
  | nil => rfl
  | cons u l ih =>
    simp only [List.map_cons, lookupCoins, creditRow_tg_id]
    by_cases hc : u.tg_id = uid
    · rw [if_pos hc, if_pos hc]
      unfold creditRow
      rw [if_neg (by rw [hc]; exact fun hh => h hh.symm)]
    · rw [if_neg hc, if_neg hc]
      exact ih

theorem lookupCoins_map_creditRow_self (l : List UserRow) (uid : Nat) (d : Int)
    (h : uid ∈ l.map UserRow.tg_id) :
    lookupCoins (l.map (creditRow uid d)) uid = lookupCoins l uid + d := by
  induction l with
  | nil => simp at h
  | cons u l ih =>
    simp only [List.map_cons, lookupCoins, creditRow_tg_id]
    by_cases hc : u.tg_id = uid
    · rw [if_pos hc, if_pos hc]
      unfold creditRow
      rw [if_pos hc]
    · rw [if_neg hc, if_neg hc]
      apply ih
      simp only [List.map_cons, List.mem_cons] at h
      rcases h with h | h
      · exact absurd h.symm hc
      · exact h

theorem lookupCoins_of_not_mem (l : List UserRow) (uid : Nat)
    (h : uid ∉ l.map UserRow.tg_id) :
    lookupCoins l uid = 0 := by
  induction l with
  | nil => rfl
  | cons u l ih =>
    simp only [List.map_cons, List.mem_cons, not_or] at h
    simp only [lookupCoins]
    rw [if_neg (fun hh => h.1 hh.symm)]
    exact ih h.2

theorem lookupLast_map_stampRow_self (l : List UserRow) (uid : Nat) (t : Int)
    (h : uid ∈ l.map UserRow.tg_id) :
    lookupLast (l.map (stampRow uid t)) uid = t := by
  induction l with
  | nil => simp at h
  | cons u l ih =>
    simp only [List.map_cons, lookupLast, stampRow_tg_id]
    by_cases hc : u.tg_id = uid
    · rw [if_pos hc]
      unfold stampRow
      rw [if_pos hc]
    · rw [if_neg hc]
      apply ih
      simp only [List.map_cons, List.mem_cons] at h
      rcases h with h | h
      · exact absurd h.symm hc
      · exact h

/-! Helper lemmas about ensureUser. -/

theorem ensureUser_mem (uid : Nat) (db : DB) :
    uid ∈ ((ensureUser uid db).users).map UserRow.tg_id := by
  unfold ensureUser
  by_cases h : uid ∈ db.users.map UserRow.tg_id
  · rw [if_pos h]
    exact h
  · rw [if_neg h]
    simp

theorem ensureUser_of_mem (uid : Nat) (db : DB)
    (h : uid ∈ db.users.map UserRow.tg_id) :
    ensureUser uid db = db := by
  unfold ensureUser
  rw [if_pos h]

theorem ensureUser_inventory (uid : Nat) (db : DB) :
    (ensureUser uid db).inventory = db.inventory := by
  unfold ensureUser
  split <;> rfl

theorem ensureUser_cards (uid : Nat) (db : DB) :
    (ensureUser uid db).cards = db.cards := by
  unfold ensureUser
  split <;> rfl

/-! Helper lemmas about one pack iteration. -/

theorem openOne_inventory (uid : Nat) (o : PackOracle) (i : Nat) (snap : List Card)
    (db : DB) :
    ∃ x : InvEntry,
      (openOne uid o i snap db).inventory = db.inventory ++ [x] ∧ x.user_id = uid := by
  unfold openOne insertInventory insertCard
  by_cases h : 0 < snap.length
  · rw [if_pos h]
    exact ⟨_, rfl, rfl⟩
  · rw [if_neg h]
    exact ⟨_, rfl, rfl⟩

theorem openOne_users (uid : Nat) (o : PackOracle) (i : Nat) (snap : List Card)
    (db : DB) :
    (openOne uid o i snap db).users = db.users := by
  unfold openOne insertInventory insertCard
  split <;> rfl

theorem openOne_trades (uid : Nat) (o : PackOracle) (i : Nat) (snap : List Card)
    (db : DB) :
    (openOne uid o i snap db).trades = db.trades := by
  unfold openOne insertInventory insertCard
  split <;> rfl

theorem openOne_cards_of_nil (uid : Nat) (o : PackOracle) (i : Nat) (db : DB) :
    (openOne uid o i [] db).cards.length = db.cards.length + 1 := by
  unfold openOne insertInventory insertCard
  rw [if_neg (by simp)]
  simp

/-! Helper lemmas about the pack loop. -/

theorem openPackLoop_users (uid : Nat) (o : PackOracle) (snap : List Card)
    (f : Option Nat) :
    ∀ (n i : Nat) (db : DB), ((openPackLoop uid o snap f n i db).2).users = db.users := by
  intro n
  induction n with
  | zero => intro i db; rfl
  | succ m ih =>
    intro i db
    unfold openPackLoop
    by_cases h : f = some i
    · rw [if_pos h]
    · rw [if_neg h, ih, openOne_users]

theorem openPackLoop_trades (uid : Nat) (o : PackOracle) (snap : List Card)
    (f : Option Nat) :
    ∀ (n i : Nat) (db : DB), ((openPackLoop uid o snap f n i db).2).trades = db.trades := by
  intro n
  induction n with
  | zero => intro i db; rfl
  | succ m ih =>
    intro i db
    unfold openPackLoop
    by_cases h : f = some i
    · rw [if_pos h]
    · rw [if_neg h, ih, openOne_trades]

theorem openPackLoop_none_flag (uid : Nat) (o : PackOracle) (snap : List Card) :
    ∀ (n i : Nat) (db : DB), (openPackLoop uid o snap none n i db).1 = true := by
  intro n
  induction n with
  | zero => intro i db; rfl
  | succ m ih =>
    intro i db
    unfold openPackLoop
    rw [if_neg (by simp)]
    exact ih (i + 1) _

theorem openPackLoop_none_inv (uid : Nat) (o : PackOracle) (snap : List Card) :
    ∀ (n i : Nat) (db : DB), ∃ l : List InvEntry,
      ((openPackLoop uid o snap none n i db).2).inventory = db.inventory ++ l ∧
      l.length = n ∧ ∀ e ∈ l, e.user_id = uid := by
  intro n
  induction n with
  | zero =>
    intro i db
    exact ⟨[], by simp [openPackLoop], rfl, by simp⟩
  | succ m ih =>
    intro i db
    unfold openPackLoop
    rw [if_neg (by simp)]
    obtain ⟨x, hx, hxu⟩ := openOne_inventory uid o i snap db
    obtain ⟨l, hl, hlen, hall⟩ := ih (i + 1) (openOne uid o i snap db)
    refine ⟨x :: l, ?_, ?_, ?_⟩
    · rw [hl, hx]
      simp
    · simp [hlen]
    · intro e he
      rcases List.mem_cons.mp he with h | h
      · rw [h]; exact hxu
      · exact hall e h

theorem openPackLoop_none_cards_nil (uid : Nat) (o : PackOracle) :
    ∀ (n i : Nat) (db : DB),
      ((openPackLoop uid o [] none n i db).2).cards.length = db.cards.length + n := by
  intro n
  induction n with
  | zero => intro i db; rfl
  | succ m ih =>
    intro i db
    unfold openPackLoop
    rw [if_neg (by simp), ih, openOne_cards_of_nil]
    omega

theorem openPackLoop_fail (uid : Nat) (o : PackOracle) (snap : List Card) (k : Nat) :
    ∀ (n i : Nat) (db : DB), i ≤ k → k < i + n →
      (openPackLoop uid o snap (some k) n i db).1 = false ∧
      ∃ l : List InvEntry,
        ((openPackLoop uid o snap (some k) n i db).2).inventory = db.inventory ++ l ∧
        l.length = k - i ∧ ∀ e ∈ l, e.user_id = uid := by
  intro n
  induction n with
  | zero =>
    intro i db h1 h2
    omega
  | succ m ih =>
    intro i db h1 h2
    unfold openPackLoop
    by_cases hk : (some k : Option Nat) = some i
    · have hki : k = i := Option.some.inj hk
      rw [if_pos hk]
      exact ⟨rfl, [], by simp, by rw [hki, Nat.sub_self]; rfl, by simp⟩
    · rw [if_neg hk]
      have hik : i ≠ k := fun h => hk (by rw [h])
      obtain ⟨hf, l, hl, hlen, hall⟩ :=
        ih (i + 1) (openOne uid o i snap db) (by omega) (by omega)
      obtain ⟨x, hx, hxu⟩ := openOne_inventory uid o i snap db
      refine ⟨hf, x :: l, ?_, ?_, ?_⟩
      · rw [hl, hx]
        simp
      · simp only [List.length_cons, hlen]
        omega
      · intro e he
        rcases List.mem_cons.mp he with h | h
        · rw [h]; exact hxu
        · exact hall e h

/-! Helper lemmas about the trade setters. -/

theorem setOwnerRow_id (iid u : Nat) (e : InvEntry) :
    (setOwnerRow iid u e).id = e.id := by
  unfold setOwnerRow
  split <;> rfl

theorem setStatusRow_id (trId : Nat) (s : String) (t : Trade) :
    (setStatusRow trId s t).id = t.id := by
  unfold setStatusRow
  split <;> rfl

theorem lookupTrade_map_setStatusRow (l : List Trade) (trId : Nat) (s : String) :
    lookupTrade (l.map (setStatusRow trId s)) trId =
      (lookupTrade l trId).map (fun t => { t with status := s }) := by
  induction l with
  | nil => rfl
  | cons t l ih =>
    simp only [List.map_cons, lookupTrade, setStatusRow_id]
    by_cases hc : t.id = trId
    · rw [if_pos hc, if_pos hc]
      unfold setStatusRow
      rw [if_pos hc]
      rfl
    · rw [if_neg hc, if_neg hc]
      exact ih

theorem lookupOwner_map_setOwnerRow (l : List InvEntry) (iid u : Nat) :
    lookupOwner (l.map (setOwnerRow iid u)) iid =
      (lookupOwner l iid).map (fun _ => u) := by
  induction l with
  | nil => rfl
  | cons e l ih =>
    simp only [List.map_cons, lookupOwner, setOwnerRow_id]
    by_cases hc : e.id = iid
    · rw [if_pos hc, if_pos hc]
      unfold setOwnerRow
      rw [if_pos hc]
      rfl
    · rw [if_neg hc, if_neg hc]
      exact ih

theorem map_setStatusRow_of_none (l : List Trade) (trId : Nat) (s : String)
    (h : lookupTrade l trId = none) :
    l.map (setStatusRow trId s) = l := by
  induction l with
  | nil => rfl
  | cons t l ih =>
    simp only [lookupTrade] at h
    by_cases hc : t.id = trId
    · rw [if_pos hc] at h
      exact absurd h (by simp)
    · rw [if_neg hc] at h
      simp only [List.map_cons, ih h]
      unfold setStatusRow
      rw [if_neg hc]

/-! Helper lemmas about the passive-income loop. -/

theorem passiveLoop_not_mem (incomes : Nat → Int) (failUid : Option Nat) :
    ∀ (uids : List Nat) (uid : Nat) (db : DB), uid ∉ uids →
      getCoins (passiveLoop incomes failUid uids db).2.1 uid = getCoins db uid ∧
      uid ∉ (passiveLoop incomes failUid uids db).2.2 := by
  intro uids
  induction uids with
  | nil =>
    intro uid db _
    exact ⟨rfl, by simp [passiveLoop]⟩
  | cons v rest ih =>
    intro uid db h
    simp only [List.mem_cons, not_or] at h
    unfold passiveLoop
    by_cases hv : 0 < incomes v
    · rw [if_pos hv]
      by_cases hf : failUid = some v
      · rw [if_pos hf]
        exact ⟨rfl, by simp⟩
      · rw [if_neg hf]
        obtain ⟨hc, hw⟩ := ih uid (updateCoins v (incomes v) db) h.2
        refine ⟨?_, ?_⟩
        · rw [hc]
          unfold getCoins updateCoins
          exact lookupCoins_map_creditRow_ne db.users v uid (incomes v)
            (fun hh => h.1 hh.symm)
        · simp only [List.mem_cons, not_or]
          exact ⟨h.1, hw⟩
    · rw [if_neg hv]
      exact ih uid db h.2

theorem passiveLoop_coins_mem (incomes : Nat → Int) :
    ∀ (uids : List Nat) (uid : Nat) (db : DB),
      uids.Nodup → uid ∈ uids → uid ∈ db.users.map UserRow.tg_id →
      ((0 < incomes uid →
        getCoins (passiveLoop incomes none uids db).2.1 uid =
          getCoins db uid + incomes uid ∧
        uid ∈ (passiveLoop incomes none uids db).2.2) ∧
       (¬ 0 < incomes uid →
        getCoins (passiveLoop incomes none uids db).2.1 uid = getCoins db uid ∧
        uid ∉ (passiveLoop incomes none uids db).2.2)) := by
  intro uids
  induction uids with
  | nil =>
    intro uid db _ hmem _
    simp at hmem
  | cons v rest ih =>
    intro uid db hnd hmem hrow
    rw [List.nodup_cons] at hnd
    by_cases hv : v = uid
    · subst hv
      constructor
      · intro hpos
        unfold passiveLoop
        rw [if_pos hpos, if_neg (by simp)]
        obtain ⟨hc, _⟩ :=
          passiveLoop_not_mem incomes none rest v (updateCoins v (incomes v) db) hnd.1
        refine ⟨?_, by simp⟩
        rw [hc]
        unfold getCoins updateCoins
        exact lookupCoins_map_creditRow_self db.users v (incomes v) hrow
      · intro hpos
        unfold passiveLoop
        rw [if_neg hpos]
        exact passiveLoop_not_mem incomes none rest v db hnd.1
    · have hmem2 : uid ∈ rest := by
        rcases List.mem_cons.mp hmem with h | h
        · exact absurd h.symm hv
        · exact h
      unfold passiveLoop
      by_cases hp : 0 < incomes v
      · rw [if_pos hp, if_neg (by simp)]
        have hrow2 : uid ∈ (updateCoins v (incomes v) db).users.map UserRow.tg_id := by
          unfold updateCoins
          rw [map_creditRow_tg_ids]
          exact hrow
        obtain ⟨hpos, hnpos⟩ :=
          ih uid (updateCoins v (incomes v) db) hnd.2 hmem2 hrow2
        have hbase : getCoins (updateCoins v (incomes v) db) uid = getCoins db uid := by
          unfold getCoins updateCoins
          exact lookupCoins_map_creditRow_ne db.users v uid (incomes v) hv
        constructor
        · intro hu
          obtain ⟨hc, hw⟩ := hpos hu
          rw [hc, hbase] at *
          exact ⟨by rw [hc, hbase], by simp [hw]⟩
        · intro hu
          obtain ⟨hc, hw⟩ := hnpos hu
          refine ⟨by rw [hc, hbase], ?_⟩
          simp only [List.mem_cons, not_or]
          exact ⟨fun hh => hv hh.symm, hw⟩
      · rw [if_neg hp]
        exact ih uid db hnd.2 hmem2 hrow

theorem setInventoryOwner_inventory (iid u : Nat) (db : DB) :
    (setInventoryOwner iid u db).inventory = db.inventory.map (setOwnerRow iid u) := rfl

theorem setInventoryOwner_trades (iid u : Nat) (db : DB) :
    (setInventoryOwner iid u db).trades = db.trades := rfl

theorem setTradeStatus_trades (trId : Nat) (s : String) (db : DB) :
    (setTradeStatus trId s db).trades = db.trades.map (setStatusRow trId s) := rfl

theorem setTradeStatus_inventory (trId : Nat) (s : String) (db : DB) :
    (setTradeStatus trId s db).inventory = db.inventory := rfl

theorem acceptTrade_of_some (db : DB) (trId uid : Nat) (tr : Trade)
    (htr : lookupTrade db.trades trId = some tr) (heq : tr.to_user = uid) :
    acceptTrade trId uid db =
      (AcceptResult.accepted,
       setTradeStatus trId "accepted"
         (setInventoryOwner tr.offered_inventory_id tr.to_user db)) := by
  simp [acceptTrade, htr, heq]

/-- Claim C1: acceptTrade refuses a missing trade with NotFound and a
non-target acting user with NotTarget, but performs no status check:
when the acting user is the target it succeeds whatever the current
status, transferring the offered entry to the target and marking the
trade accepted; a repeated accept therefore succeeds again (there is no
AlreadyResolved failure) while leaving the owner of the offered entry
unchanged. -/
theorem acceptTrade_checks (db : DB) (trId uid : Nat) :
    (lookupTrade db.trades trId = none →
      acceptTrade trId uid db = (AcceptResult.notFound, db)) ∧
    (∀ tr, lookupTrade db.trades trId = some tr → tr.to_user ≠ uid →
      acceptTrade trId uid db = (AcceptResult.notTarget, db)) ∧
    (∀ tr, lookupTrade db.trades trId = some tr → tr.to_user = uid →
      (acceptTrade trId uid db).1 = AcceptResult.accepted ∧
      invOwner (acceptTrade trId uid db).2 tr.offered_inventory_id =
        (invOwner db tr.offered_inventory_id).map (fun _ => uid) ∧
      tradeStatus (acceptTrade trId uid db).2 trId = some "accepted" ∧
      (acceptTrade trId uid ((acceptTrade trId uid db).2)).1 = AcceptResult.accepted ∧
      invOwner ((acceptTrade trId uid ((acceptTrade trId uid db).2)).2)
          tr.offered_inventory_id =
        invOwner ((acceptTrade trId uid db).2) tr.offered_inventory_id) := by
  refine ⟨?_, ?_, ?_⟩
  · intro h
    simp [acceptTrade, h]
  · intro tr htr hne
    simp [acceptTrade, htr, hne]
  · intro tr htr heq
    have hstep := acceptTrade_of_some db trId uid tr htr heq
    have hinv1 : ((acceptTrade trId uid db).2).inventory =
        db.inventory.map (setOwnerRow tr.offered_inventory_id tr.to_user) := by
      rw [hstep, setTradeStatus_inventory, setInventoryOwner_inventory]
    have htr1 : ((acceptTrade trId uid db).2).trades =
        db.trades.map (setStatusRow trId "accepted") := by
      rw [hstep, setTradeStatus_trades, setInventoryOwner_trades]
    have howner1 : invOwner (acceptTrade trId uid db).2 tr.offered_inventory_id =
        (invOwner db tr.offered_inventory_id).map (fun _ => uid) := by
      unfold invOwner
      rw [hinv1, lookupOwner_map_setOwnerRow, heq]
    have hlook1 : lookupTrade ((acceptTrade trId uid db).2).trades trId =
        some { tr with status := "accepted" } := by
      rw [htr1, lookupTrade_map_setStatusRow, htr]
      rfl
    have hstep2 := acceptTrade_of_some (acceptTrade trId uid db).2 trId uid
      { tr with status := "accepted" } hlook1 heq
    refine ⟨by rw [hstep], howner1, ?_, by rw [hstep2], ?_⟩
    · unfold tradeStatus
      rw [htr1, lookupTrade_map_setStatusRow, htr]
      rfl
    · have hinv2 : ((acceptTrade trId uid ((acceptTrade trId uid db).2)).2).inventory =
          ((acceptTrade trId uid db).2).inventory.map
            (setOwnerRow tr.offered_inventory_id tr.to_user) := by
        rw [hstep2, setTradeStatus_inventory, setInventoryOwner_inventory]
      unfold invOwner
      rw [hinv2, lookupOwner_map_setOwnerRow, heq]
      unfold invOwner at howner1
      rw [howner1]
      cases lookupOwner db.inventory tr.offered_inventory_id <;> rfl

/-- Claim C1, counterexample to the claim as stated: in dbC1 trade 1 is
already rejected (status not pending), yet acceptTrade by the target
user 2 does not fail with AlreadyResolved: it succeeds and transfers
the offered inventory entry 10 from user 1 to user 2. -/
theorem acceptTrade_status_cex :
    tradeStatus dbC1 1 = some "rejected" ∧
    invOwner dbC1 10 = some 1 ∧
    (acceptTrade 1 2 dbC1).1 = AcceptResult.accepted ∧
    invOwner (acceptTrade 1 2 dbC1).2 10 = some 2 := by decide

/-- Claim C1, witness: the success clause of acceptTrade_checks at the
concrete pending trade of dbC4. -/
theorem acceptTrade_checks_w :
    lookupTrade dbC4.trades 1 = some tradeC4 ∧ tradeC4.to_user = 2 ∧
    ((acceptTrade 1 2 dbC4).1 = AcceptResult.accepted ∧
     invOwner (acceptTrade 1 2 dbC4).2 tradeC4.offered_inventory_id =
       (invOwner dbC4 tradeC4.offered_inventory_id).map (fun _ => 2) ∧
     tradeStatus (acceptTrade 1 2 dbC4).2 1 = some "accepted" ∧
     (acceptTrade 1 2 ((acceptTrade 1 2 dbC4).2)).1 = AcceptResult.accepted ∧
     invOwner ((acceptTrade 1 2 ((acceptTrade 1 2 dbC4).2)).2)
         tradeC4.offered_inventory_id =
       invOwner ((acceptTrade 1 2 dbC4).2) tradeC4.offered_inventory_id) :=
  ⟨by decide, rfl, (acceptTrade_checks dbC4 1 2).2.2 tradeC4 (by decide) rfl⟩

/-- Claim C4: rejectTrade performs no lookup and no authorization
check: for every trade id and acting user it leaves inventory and users
untouched, sets the status of the trade with that id (when present) to
rejected, and is a no-op on a store with no such trade. -/
theorem rejectTrade_behavior (db : DB) (trId uid : Nat) :
    (rejectTrade trId uid db).inventory = db.inventory ∧
    (rejectTrade trId uid db).users = db.users ∧
    tradeStatus (rejectTrade trId uid db) trId =
      (tradeStatus db trId).map (fun _ => "rejected") ∧
    (lookupTrade db.trades trId = none → rejectTrade trId uid db = db) := by
  refine ⟨rfl, rfl, ?_, ?_⟩
  · unfold tradeStatus rejectTrade
    rw [setTradeStatus_trades, lookupTrade_map_setStatusRow]
    cases lookupTrade db.trades trId <;> rfl
  · intro h
    unfold rejectTrade setTradeStatus
    rw [map_setStatusRow_of_none db.trades trId _ h]

/-- Claim C4, counterexample to the claim as stated: trade 1 of dbC4
targets user 2, yet the acting user 3 (who is neither the target nor
even a participant) rejects it successfully instead of failing with
NotTarget. -/
theorem rejectTrade_auth_cex :
    (lookupTrade dbC4.trades 1).map Trade.to_user = some 2 ∧
    (3 : Nat) ≠ 2 ∧
    tradeStatus dbC4 1 = some "pending" ∧
    tradeStatus (rejectTrade 1 3 dbC4) 1 = some "rejected" := by decide

/-- Claim C4, witness: the no-such-trade clause of rejectTrade_behavior
at a concrete store. -/
theorem rejectTrade_behavior_w :
    lookupTrade dbC4.trades 99 = none ∧ rejectTrade 99 3 dbC4 = dbC4 :=
  ⟨by decide, (rejectTrade_behavior dbC4 99 3).2.2.2 (by decide)⟩

theorem openPackRun_users (uid count : Nat) (o : PackOracle) (f : Option Nat) (db : DB) :
    ((openPackRun uid count o f db).2).users = db.users :=
  openPackLoop_users uid o db.cards f count 0 db

theorem openPackRun_none_flag (uid count : Nat) (o : PackOracle) (db : DB) :
    (openPackRun uid count o none db).1 = true :=
  openPackLoop_none_flag uid o db.cards count 0 db

theorem openPackRun_none_inv (uid count : Nat) (o : PackOracle) (db : DB) :
    ∃ l : List InvEntry,
      ((openPackRun uid count o none db).2).inventory = db.inventory ++ l ∧
      l.length = count ∧ ∀ e ∈ l, e.user_id = uid :=
  openPackLoop_none_inv uid o db.cards count 0 db

theorem openPackRun_fail_inv (uid count k : Nat) (o : PackOracle) (db : DB)
    (hk : k < count) :
    (openPackRun uid count o (some k) db).1 = false ∧
    ∃ l : List InvEntry,
      ((openPackRun uid count o (some k) db).2).inventory = db.inventory ++ l ∧
      l.length = k ∧ ∀ e ∈ l, e.user_id = uid := by
  obtain ⟨hf, l, h1, h2, h3⟩ :=
    openPackLoop_fail uid o db.cards k count 0 db (Nat.zero_le k) (by omega)
  exact ⟨hf, l, h1, by omega, h3⟩

/-- Claim C2: the pack loop runs its inserts in autocommit mode with no
enclosing transaction.  A failure-free run commits exactly count
entries, but a failure at iteration k of the loop leaves the k entries
already inserted persisted: the operation is not all-or-nothing. -/
theorem openPack_commit_behavior (db : DB) (uid count k : Nat) (o : PackOracle)
    (hk : k < count) :
    ((openPackRun uid count o none db).1 = true ∧
     ∃ l : List InvEntry,
       ((openPackRun uid count o none db).2).inventory = db.inventory ++ l ∧
       l.length = count ∧ ∀ e ∈ l, e.user_id = uid) ∧
    ((openPackRun uid count o (some k) db).1 = false ∧
     ∃ l : List InvEntry,
       ((openPackRun uid count o (some k) db).2).inventory = db.inventory ++ l ∧
       l.length = k ∧ ∀ e ∈ l, e.user_id = uid) :=
  ⟨⟨openPackRun_none_flag uid count o db, openPackRun_none_inv uid count o db⟩,
   openPackRun_fail_inv uid count k o db hk⟩

/-- Claim C2, counterexample to the claim as stated: generating a pack
of 5 for user 7 over dbC2 with the insert of iteration 3 failing leaves
exactly 3 inventory entries persisted, neither 0 nor 5: a partly
committed pack remains in the store. -/
theorem openPack_atomicity_cex :
    dbC2.inventory.length = 0 ∧
    (openPackRun 7 5 o0 (some 3) dbC2).1 = false ∧
    ((openPackRun 7 5 o0 (some 3) dbC2).2).inventory.length = 3 := by decide

/-- Claim C2, witness: openPack_commit_behavior at dbC2 with count 5
and a failure at iteration 3. -/
theorem openPack_commit_behavior_w :
    3 < 5 ∧
    (((openPackRun 7 5 o0 none dbC2).1 = true ∧
      ∃ l : List InvEntry,
        ((openPackRun 7 5 o0 none dbC2).2).inventory = dbC2.inventory ++ l ∧
        l.length = 5 ∧ ∀ e ∈ l, e.user_id = 7) ∧
     ((openPackRun 7 5 o0 (some 3) dbC2).1 = false ∧
      ∃ l : List InvEntry,
        ((openPackRun 7 5 o0 (some 3) dbC2).2).inventory = dbC2.inventory ++ l ∧
        l.length = 3 ∧ ∀ e ∈ l, e.user_id = 7)) :=
  ⟨by decide, openPack_commit_behavior dbC2 7 5 3 o0 (by decide)⟩

/-- Claim C3: buyPack has no transactional rollback.  When the balance
covers the price and pack generation fails at some iteration k, the run
ends crashed with the debit still applied: the final balance is the
initial balance minus price, not the initial balance. -/
theorem buyPack_no_rollback (db : DB) (uid count k : Nat) (price : Int) (o : PackOracle)
    (hmem : uid ∈ db.users.map UserRow.tg_id) (hge : price ≤ getCoins db uid)
    (hk : k < count) :
    (buyPackRun uid count price o (some k) db).1 = BuyResult.crashed ∧
    getCoins (buyPackRun uid count price o (some k) db).2 uid = getCoins db uid - price := by
  have hnl : ¬ getCoins db uid < price := not_lt.mpr hge
  have hrun : buyPackRun uid count price o (some k) db =
      (if (openPackRun uid count o (some k) (updateCoins uid (-price) db)).1 then
        BuyResult.ok
       else BuyResult.crashed,
       (openPackRun uid count o (some k) (updateCoins uid (-price) db)).2) := by
    unfold buyPackRun
    rw [if_neg hnl]
  have hflag := (openPackRun_fail_inv uid count k o (updateCoins uid (-price) db) hk).1
  constructor
  · rw [hrun]
    simp [hflag]
  · rw [hrun]
    show getCoins (openPackRun uid count o (some k) (updateCoins uid (-price) db)).2 uid =
      getCoins db uid - price
    unfold getCoins
    rw [openPackRun_users]
    unfold updateCoins
    rw [lookupCoins_map_creditRow_self db.users uid (-price) hmem]
    omega

/-- Claim C3, counterexample to the claim as stated: user 7 starts with
60 coins in dbC3; buying the 10-card bundle for 60 with the first
insert failing leaves the balance at 0, not restored to 60. -/
theorem buyPack_rollback_cex :
    getCoins dbC3 7 = 60 ∧
    (buyPackRun 7 10 60 o0 (some 0) dbC3).1 = BuyResult.crashed ∧
    getCoins (buyPackRun 7 10 60 o0 (some 0) dbC3).2 7 = 0 := by decide

/-- Claim C3, witness: buyPack_no_rollback at dbC3 with price 60 and a
failure at the first insert. -/
theorem buyPack_no_rollback_w :
    (7 ∈ dbC3.users.map UserRow.tg_id) ∧ (60 : Int) ≤ getCoins dbC3 7 ∧ 0 < 10 ∧
    ((buyPackRun 7 10 60 o0 (some 0) dbC3).1 = BuyResult.crashed ∧
     getCoins (buyPackRun 7 10 60 o0 (some 0) dbC3).2 7 = getCoins dbC3 7 - 60) :=
  ⟨by decide, by decide, by decide,
   buyPack_no_rollback dbC3 7 10 0 60 o0 (by decide) (by decide) (by decide)⟩

/-- Claim C6: buyPack with balance below the price fails with the
insufficient-funds message and mutates nothing; with balance at least
the price it succeeds, debits exactly price and appends exactly count
inventory entries owned by the buyer. -/
theorem buyPack_funds (db : DB) (uid count : Nat) (price b : Int) (o : PackOracle)
    (hmem : uid ∈ db.users.map UserRow.tg_id) (hb : getCoins db uid = b) :
    (b < price → buyPack uid count price o db = (BuyResult.insufficientFunds, db)) ∧
    (price ≤ b →
      (buyPack uid count price o db).1 = BuyResult.ok ∧
      getCoins (buyPack uid count price o db).2 uid = b - price ∧
      ∃ l : List InvEntry,
        ((buyPack uid count price o db).2).inventory = db.inventory ++ l ∧
        l.length = count ∧ ∀ e ∈ l, e.user_id = uid) := by
  constructor
  · intro hlt
    unfold buyPack buyPackRun
    rw [if_pos (by rw [hb]; exact hlt)]
  · intro hge
    have hnl : ¬ getCoins db uid < price := not_lt.mpr (by rw [hb]; exact hge)
    have hrun : buyPack uid count price o db =
        (if (openPackRun uid count o none (updateCoins uid (-price) db)).1 then
          BuyResult.ok
         else BuyResult.crashed,
         (openPackRun uid count o none (updateCoins uid (-price) db)).2) := by
      unfold buyPack buyPackRun
      rw [if_neg hnl]
    have hflag := openPackRun_none_flag uid count o (updateCoins uid (-price) db)
    refine ⟨?_, ?_, ?_⟩
    · rw [hrun]
      simp [hflag]
    · rw [hrun]
      show getCoins (openPackRun uid count o none (updateCoins uid (-price) db)).2 uid =
        b - price
      unfold getCoins
      rw [openPackRun_users]
      unfold updateCoins
      rw [lookupCoins_map_creditRow_self db.users uid (-price) hmem]
      unfold getCoins at hb
      omega
    · rw [hrun]
      show ∃ l : List InvEntry,
        ((openPackRun uid count o none (updateCoins uid (-price) db)).2).inventory =
          db.inventory ++ l ∧ l.length = count ∧ ∀ e ∈ l, e.user_id = uid
      exact openPackRun_none_inv uid count o (updateCoins uid (-price) db)

/-- Claim C6, witness: buyPack_funds at balance 60 buying the 10-card
bundle for 60 (ends at 0 with 10 new entries) and at balance 59 (fails
with insufficient funds, nothing changed). -/
theorem buyPack_funds_w :
    getCoins dbC3 7 = 60 ∧ getCoins dbC6 7 = 59 ∧
    ((buyPack 7 10 60 o0 dbC3).1 = BuyResult.ok ∧
     getCoins (buyPack 7 10 60 o0 dbC3).2 7 = 60 - 60 ∧
     ∃ l : List InvEntry,
       ((buyPack 7 10 60 o0 dbC3).2).inventory = dbC3.inventory ++ l ∧
       l.length = 10 ∧ ∀ e ∈ l, e.user_id = 7) ∧
    buyPack 7 10 60 o0 dbC6 = (BuyResult.insufficientFunds, dbC6) :=
  ⟨by decide, by decide,
   (buyPack_funds dbC3 7 10 60 60 o0 (by decide) (by decide)).2 (by decide),
   (buyPack_funds dbC6 7 10 60 59 o0 (by decide) (by decide)).1 (by decide)⟩

/-- Claim C10: buyPack invoked for a user with no account row treats
the balance as 0, so any positive price fails with insufficient funds
and the store is returned unchanged: no account row and no inventory
entry is created. -/
theorem buyPack_missing_user (db : DB) (uid count : Nat) (price : Int) (o : PackOracle)
    (habs : uid ∉ db.users.map UserRow.tg_id) (hpos : 0 < price) :
    buyPack uid count price o db = (BuyResult.insufficientFunds, db) := by
  unfold buyPack buyPackRun
  rw [if_pos (show getCoins db uid < price by
    unfold getCoins
    rw [lookupCoins_of_not_mem db.users uid habs]
    exact hpos)]

/-- Claim C10, witness: buyPack_missing_user on the empty store. -/
theorem buyPack_missing_user_w :
    (7 ∉ emptyDB.users.map UserRow.tg_id) ∧ (0 : Int) < 20 ∧
    buyPack 7 2 20 o0 emptyDB = (BuyResult.insufficientFunds, emptyDB) :=
  ⟨by decide, by decide, buyPack_missing_user emptyDB 7 2 20 o0 (by decide) (by decide)⟩

theorem claimFreePack_of_ready (uid : Nat) (now cd : Int) (o : PackOracle) (db : DB)
    (h : ¬ now - getLastPack (ensureUser uid db) uid < cd * 60 * 1000) :
    claimFreePack uid now cd o db =
      (ClaimResult.ok, openPack uid 5 o (setLastPack uid now (ensureUser uid db))) := by
  unfold claimFreePack
  rw [if_neg h]

theorem claimFreePack_of_waiting (uid : Nat) (now cd : Int) (o : PackOracle) (db : DB)
    (h : now - getLastPack (ensureUser uid db) uid < cd * 60 * 1000) :
    claimFreePack uid now cd o db =
      (ClaimResult.cooldownActive
        (ceilMinutes (cd * 60 * 1000 - (now - getLastPack (ensureUser uid db) uid))),
       ensureUser uid db) := by
  unfold claimFreePack
  rw [if_pos h]

/-- Claim C5: the free-pack claim fails with the cooldown message
carrying the rounded-up remaining minutes while the elapsed time is
below the cooldown, and otherwise stamps the last-pack timestamp to now
and opens a pack of exactly 5 cards.  Concretely: an eligible first
call succeeds and records now1; a second call within the window fails
with the rounded-up wait and changes nothing; a third call after the
window elapses succeeds again. -/
theorem claimFreePack_cooldown (db : DB) (uid : Nat) (cd now1 now2 now3 : Int)
    (o1 o2 o3 : PackOracle)
    (h1 : cd * 60 * 1000 ≤ now1 - getLastPack (ensureUser uid db) uid)
    (h2 : now2 - now1 < cd * 60 * 1000)
    (h3 : cd * 60 * 1000 ≤ now3 - now1) :
    (claimFreePack uid now1 cd o1 db).1 = ClaimResult.ok ∧
    getLastPack (claimFreePack uid now1 cd o1 db).2 uid = now1 ∧
    ((claimFreePack uid now1 cd o1 db).2).inventory.length = db.inventory.length + 5 ∧
    claimFreePack uid now2 cd o2 ((claimFreePack uid now1 cd o1 db).2) =
      (ClaimResult.cooldownActive (ceilMinutes (cd * 60 * 1000 - (now2 - now1))),
       (claimFreePack uid now1 cd o1 db).2) ∧
    (claimFreePack uid now3 cd o3 ((claimFreePack uid now1 cd o1 db).2)).1 =
      ClaimResult.ok := by
  have hstep1 := claimFreePack_of_ready uid now1 cd o1 db (not_lt.mpr h1)
  have husers1 : ((claimFreePack uid now1 cd o1 db).2).users =
      (ensureUser uid db).users.map (stampRow uid now1) := by
    rw [hstep1]
    show ((openPackRun uid 5 o1 none (setLastPack uid now1 (ensureUser uid db))).2).users =
      (ensureUser uid db).users.map (stampRow uid now1)
    rw [openPackRun_users]
    rfl
  have hlast1 : getLastPack (claimFreePack uid now1 cd o1 db).2 uid = now1 := by
    unfold getLastPack
    rw [husers1]
    exact lookupLast_map_stampRow_self (ensureUser uid db).users uid now1
      (ensureUser_mem uid db)
  have hmem1 : uid ∈ ((claimFreePack uid now1 cd o1 db).2).users.map UserRow.tg_id := by
    rw [husers1, map_stampRow_tg_ids]
    exact ensureUser_mem uid db
  have hens1 : ensureUser uid ((claimFreePack uid now1 cd o1 db).2) =
      (claimFreePack uid now1 cd o1 db).2 :=
    ensureUser_of_mem uid _ hmem1
  have hinv1 : ((claimFreePack uid now1 cd o1 db).2).inventory.length =
      db.inventory.length + 5 := by
    rw [hstep1]
    show ((openPackRun uid 5 o1 none (setLastPack uid now1 (ensureUser uid db))).2).inventory.length =
      db.inventory.length + 5
    obtain ⟨l, ha, hlen, _⟩ :=
      openPackRun_none_inv uid 5 o1 (setLastPack uid now1 (ensureUser uid db))
    rw [ha, List.length_append, hlen]
    have hsl : (setLastPack uid now1 (ensureUser uid db)).inventory = db.inventory := by
      show (ensureUser uid db).inventory = db.inventory
      exact ensureUser_inventory uid db
    rw [hsl]
  refine ⟨by rw [hstep1], hlast1, hinv1, ?_, ?_⟩
  · have hc2 : now2 - getLastPack (ensureUser uid ((claimFreePack uid now1 cd o1 db).2)) uid <
        cd * 60 * 1000 := by
      rw [hens1, hlast1]
      exact h2
    rw [claimFreePack_of_waiting uid now2 cd o2 _ hc2, hens1, hlast1]
  · have hc3 : ¬ now3 - getLastPack (ensureUser uid ((claimFreePack uid now1 cd o1 db).2)) uid <
        cd * 60 * 1000 := by
      rw [hens1, hlast1]
      exact not_lt.mpr h3
    rw [claimFreePack_of_ready uid now3 cd o3 _ hc3]

/-- Claim C5, witness: claimFreePack_cooldown on the empty store with a
30-minute cooldown; the second call 1 minute after the first reports a
29-minute wait. -/
theorem claimFreePack_cooldown_w :
    (30 * 60 * 1000 : Int) ≤ 1800000 - getLastPack (ensureUser 7 emptyDB) 7 ∧
    (1860000 - 1800000 : Int) < 30 * 60 * 1000 ∧
    (30 * 60 * 1000 : Int) ≤ 3600000 - 1800000 ∧
    ((claimFreePack 7 1800000 30 o0 emptyDB).1 = ClaimResult.ok ∧
     getLastPack (claimFreePack 7 1800000 30 o0 emptyDB).2 7 = 1800000 ∧
     ((claimFreePack 7 1800000 30 o0 emptyDB).2).inventory.length =
       emptyDB.inventory.length + 5 ∧
     claimFreePack 7 1860000 30 o0 ((claimFreePack 7 1800000 30 o0 emptyDB).2) =
       (ClaimResult.cooldownActive (ceilMinutes (30 * 60 * 1000 - (1860000 - 1800000))),
        (claimFreePack 7 1800000 30 o0 emptyDB).2) ∧
     (claimFreePack 7 3600000 30 o0 ((claimFreePack 7 1800000 30 o0 emptyDB).2)).1 =
       ClaimResult.ok) :=
  ⟨by decide, by decide, by decide,
   claimFreePack_cooldown emptyDB 7 30 1800000 1860000 3600000 o0 o0 o0
     (by decide) (by decide) (by decide)⟩

/-- Claim C7: a failure-free openPack always appends exactly count
inventory entries, each owned by the requesting user, whatever the
catalog contents; over an empty catalog, openPack for 5 cards creates
between 1 and 5 new catalog cards (in fact exactly 5, one per
iteration, since the catalog snapshot is taken once before the loop)
and exactly 5 inventory entries. -/
theorem openPack_count (db : DB) (uid count : Nat) (o : PackOracle)
    (hcount : 1 ≤ count) :
    (∃ l : List InvEntry,
      (openPack uid count o db).inventory = db.inventory ++ l ∧
      l.length = count ∧ ∀ e ∈ l, e.user_id = uid) ∧
    (db.cards = [] →
      1 ≤ (openPack uid 5 o db).cards.length ∧
      (openPack uid 5 o db).cards.length ≤ 5 ∧
      (openPack uid 5 o db).inventory.length = db.inventory.length + 5) := by
  constructor
  · exact openPackRun_none_inv uid count o db
  · intro h
    have hcards : (openPack uid 5 o db).cards.length = 5 := by
      show ((openPackLoop uid o db.cards none 5 0 db).2).cards.length = 5
      rw [h, openPackLoop_none_cards_nil uid o 5 0 db, h]
      simp
    have hinv : (openPack uid 5 o db).inventory.length = db.inventory.length + 5 := by
      obtain ⟨l, ha, hlen, _⟩ := openPackRun_none_inv uid 5 o db
      show ((openPackRun uid 5 o none db).2).inventory.length = db.inventory.length + 5
      rw [ha, List.length_append, hlen]
    exact ⟨by omega, by omega, hinv⟩

/-- Claim C7, witness: openPack_count on the empty store (empty
catalog) with count 5. -/
theorem openPack_count_w :
    1 ≤ 5 ∧ emptyDB.cards = [] ∧
    ((∃ l : List InvEntry,
       (openPack 7 5 o0 emptyDB).inventory = emptyDB.inventory ++ l ∧
       l.length = 5 ∧ ∀ e ∈ l, e.user_id = 7) ∧
     (emptyDB.cards = [] →
       1 ≤ (openPack 7 5 o0 emptyDB).cards.length ∧
       (openPack 7 5 o0 emptyDB).cards.length ≤ 5 ∧
       (openPack 7 5 o0 emptyDB).inventory.length = emptyDB.inventory.length + 5)) :=
  ⟨by decide, rfl, openPack_count emptyDB 7 5 o0 (by decide)⟩

/-- Claim C8: one passive-income tick credits each user with exactly the
sum of income rates over the cards referenced by the inventory entries
the user currently owns; a user with no owned entries has income 0, and
a user whose income is 0 gets no balance change and no UPDATE issued. -/
theorem givePassiveIncome_sum (db : DB) (uid : Nat)
    (hnd : (db.users.map UserRow.tg_id).Nodup)
    (hmem : uid ∈ db.users.map UserRow.tg_id) :
    (db.inventory.filter (fun e => e.user_id == uid) = [] → userIncome db uid = 0) ∧
    (0 < userIncome db uid →
      getCoins (givePassiveIncomeAll none db).2.1 uid =
        getCoins db uid + userIncome db uid ∧
      uid ∈ (givePassiveIncomeAll none db).2.2) ∧
    (userIncome db uid = 0 →
      getCoins (givePassiveIncomeAll none db).2.1 uid = getCoins db uid ∧
      uid ∉ (givePassiveIncomeAll none db).2.2) := by
  have hspec := passiveLoop_coins_mem (fun u => userIncome db u)
    (db.users.map UserRow.tg_id) uid db hnd hmem hmem
  refine ⟨?_, ?_, ?_⟩
  · intro h
    unfold userIncome
    rw [h]
    rfl
  · intro hpos
    exact hspec.1 hpos
  · intro hz
    have hnpos : ¬ 0 < userIncome db uid := by omega
    exact hspec.2 hnpos

/-- Claim C8, witness: in dbC8, user 1 owns cards with rates 1 and 8
and is credited exactly 9 by one tick, while user 2 owns nothing and
receives neither a balance change nor an UPDATE. -/
theorem givePassiveIncome_sum_w :
    (dbC8.users.map UserRow.tg_id).Nodup ∧
    (1 ∈ dbC8.users.map UserRow.tg_id) ∧ (2 ∈ dbC8.users.map UserRow.tg_id) ∧
    userIncome dbC8 1 = 9 ∧ userIncome dbC8 2 = 0 ∧
    (getCoins (givePassiveIncomeAll none dbC8).2.1 1 =
       getCoins dbC8 1 + userIncome dbC8 1 ∧
     1 ∈ (givePassiveIncomeAll none dbC8).2.2) ∧
    (getCoins (givePassiveIncomeAll none dbC8).2.1 2 = getCoins dbC8 2 ∧
     2 ∉ (givePassiveIncomeAll none dbC8).2.2) :=
  ⟨by decide, by decide, by decide, by decide, by decide,
   (givePassiveIncome_sum dbC8 1 (by decide) (by decide)).2.1 (by decide),
   (givePassiveIncome_sum dbC8 2 (by decide) (by decide)).2.2 (by decide)⟩

/-- Claim C9: there is no per-iteration error handling in the credit
loop: when the UPDATE for the first user of the tick throws, the tick
aborts with no user credited and no further write issued; the error is
only caught per tick by the scheduler. -/
theorem passive_income_fail_aborts (db : DB) (uid : Nat)
    (hpos : 0 < userIncome db uid)
    (hhead : ∃ rest, db.users.map UserRow.tg_id = uid :: rest) :
    givePassiveIncomeAll (some uid) db = (false, db, []) := by
  obtain ⟨rest, hr⟩ := hhead
  unfold givePassiveIncomeAll
  rw [hr]
  simp [passiveLoop, hpos]

/-- Claim C9, counterexample to the claim as stated: in dbC9 both users
own an income-1 card; when the credit for user 1 fails, the tick aborts
and user 2 — although entitled to a positive credit — is not credited
and receives no write in that tick. -/
theorem passive_income_isolation_cex :
    0 < userIncome dbC9 2 ∧
    givePassiveIncomeAll (some 1) dbC9 = (false, dbC9, []) ∧
    getCoins dbC9 2 = 0 := by decide

/-- Claim C9, witness: passive_income_fail_aborts at dbC9 with the
failing user first in the iteration order. -/
theorem passive_income_fail_aborts_w :
    0 < userIncome dbC9 1 ∧ dbC9.users.map UserRow.tg_id = 1 :: [2] ∧
    givePassiveIncomeAll (some 1) dbC9 = (false, dbC9, []) :=
  ⟨by decide, by decide,
   passive_income_fail_aborts dbC9 1 (by decide) ⟨[2], by decide⟩⟩

end CardBot
